import Mathlib

/-!
Verification of the token-resolution and variant-composition core of the
Boombox Design System (packages/tokens and packages/components).

Embedding conventions, fixed once for the whole development:

* A token category tree (`colors`, `spacing`, `shadows`, `borders`, `zIndex`,
  `typography`, `breakpoints`) is a nested TypeScript object literal of
  string/number/array leaves.  It is embedded as a `TokenTree`, with object
  literals modelled as finite maps over their own string keys; JavaScript
  prototype-chain properties are outside the model.
* Array values are modelled as leaf values (`TokenTree.arr`), matching the
  documented data model in which arrays are primitive token values; numeric
  indexing into an array through the dotted-path API is outside the model.
* A `throw new Error(...)` in a lookup helper is modelled as `Except.error`
  carrying a structured `TokenError` that records the full requested path,
  mirroring the thrown messages `<Category> path "<path>" not found` and
  `<Category> path "<path>" does not resolve to a <string|number> value`.
  The helpers are total `Except`-valued functions, so "silently returning
  undefined" is not possible by construction, exactly as in the source,
  where every non-success control path throws.
* The hex→rgb derivations evaluated at module load inside `shadows.ts` are
  embedded by the function `hexChannels` below, and the derived entries of
  the `shadows` tree are built with it from the very same colour constants
  that the `colors` tree is built from, mirroring the `import { colors }`
  reference in the source.
-/

/-- A value in a token category tree: a string leaf, a numeric leaf, an
array leaf, or a nested object with string keys in declaration order. -/
inductive TokenTree where
  | str (s : String)
  | num (n : Int)
  | arr (elems : List TokenTree)
  | node (children : List (String × TokenTree))

/-- Whether a tree value is a JavaScript string (`typeof value === 'string'`). -/
def TokenTree.isStr : TokenTree → Bool
  | .str _ => true
  | _ => false

/-- Whether a tree value is a JavaScript number (`typeof value === 'number'`). -/
def TokenTree.isNum : TokenTree → Bool
  | .num _ => true
  | _ => false

/-- Key lookup among an object literal's own keys (`key in value` for the
token data; prototype properties are outside the model). -/
def lookupChild (k : String) : List (String × TokenTree) → Option TokenTree
  | [] => none
  | (k2, t) :: rest => if k = k2 then some t else lookupChild k rest

/-- The segment-walking loop shared by every category getter:
`for (const key of keys) { if (value && typeof value === 'object' && key in value) value = value[key]; else <fail>; }`.
Walking fails when the current value is a leaf (not an object) or the key is
not among the current object's keys. -/
def walk : TokenTree → List String → Option TokenTree
  | t, [] => some t
  | .node cs, k :: rest =>
    match lookupChild k cs with
    | some t => walk t rest
    | none => none
  | _, _ :: _ => none

/-- The two error kinds of the token store, each naming the full requested
path (the thrown `Error` messages embed the path verbatim). -/
inductive TokenError where
  | notFound (path : String)
  | typeError (path : String)
deriving DecidableEq

/-- `path.split('.')`: JavaScript string split with the one-character
separator `'.'`, modelled on the character list (`''.split('.')` is `['']`,
and empty segments are kept, exactly as in JavaScript). -/
def splitPath (path : String) : List String :=
  (path.data.splitOn '.').map String.mk

/-! Colour constants: the leaf values of `colors` in
`packages/tokens/src/base/colors.ts`, named by their paths so that the
cross-references from `shadows.ts`, `typography.ts` and the borders token
file can point at the same definitions. -/

def colors_primary_50 : String := "#fafafa"
def colors_primary_100 : String := "#f4f4f5"
def colors_primary_400 : String := "#a1a1aa"
def colors_primary_500 : String := "#71717a"
def colors_primary_700 : String := "#404040"
def colors_primary_800 : String := "#2d2d2d"
def colors_primary_950 : String := "#222222"
def colors_secondary_50 : String := "#f8fafc"
def colors_secondary_100 : String := "#f1f5f9"
def colors_secondary_200 : String := "#e2e8f0"
def colors_secondary_400 : String := "#94a3b8"
def colors_secondary_500 : String := "#64748b"
def colors_semantic_success_100 : String := "#d1fae5"
def colors_semantic_success_200 : String := "#a7f3d0"
def colors_semantic_success_500 : String := "#10b981"
def colors_semantic_success_600 : String := "#059669"
def colors_semantic_success_700 : String := "#047857"
def colors_semantic_error_50 : String := "#fef2f2"
def colors_semantic_error_100 : String := "#fee2e2"
def colors_semantic_error_200 : String := "#fecaca"
def colors_semantic_error_500 : String := "#ef4444"
def colors_semantic_error_600 : String := "#dc2626"
def colors_semantic_error_700 : String := "#b91c1c"
def colors_semantic_warning_50 : String := "#fffbeb"
def colors_semantic_warning_100 : String := "#fef3c7"
def colors_semantic_warning_200 : String := "#fde68a"
def colors_semantic_warning_400 : String := "#fbbf24"
def colors_semantic_warning_500 : String := "#f59e0b"
def colors_semantic_info_100 : String := "#cffafe"
def colors_semantic_info_200 : String := "#a5f3fc"
def colors_semantic_info_500 : String := "#06b6d4"
def colors_semantic_info_600 : String := "#0891b2"

/-- The `colors` token tree of `packages/tokens/src/base/colors.ts`. -/
def colors : TokenTree := .node [
  ("primary", .node [
    ("50", .str colors_primary_50),
    ("100", .str colors_primary_100),
    ("400", .str colors_primary_400),
    ("500", .str colors_primary_500),
    ("700", .str colors_primary_700),
    ("800", .str colors_primary_800),
    ("950", .str colors_primary_950)]),
  ("secondary", .node [
    ("50", .str colors_secondary_50),
    ("100", .str colors_secondary_100),
    ("200", .str colors_secondary_200),
    ("400", .str colors_secondary_400),
    ("500", .str colors_secondary_500)]),
  ("semantic", .node [
    ("success", .node [
      ("100", .str colors_semantic_success_100),
      ("200", .str colors_semantic_success_200),
      ("500", .str colors_semantic_success_500),
      ("600", .str colors_semantic_success_600),
      ("700", .str colors_semantic_success_700)]),
    ("error", .node [
      ("50", .str colors_semantic_error_50),
      ("100", .str colors_semantic_error_100),
      ("200", .str colors_semantic_error_200),
      ("500", .str colors_semantic_error_500),
      ("600", .str colors_semantic_error_600),
      ("700", .str colors_semantic_error_700)]),
    ("warning", .node [
      ("50", .str colors_semantic_warning_50),
      ("100", .str colors_semantic_warning_100),
      ("200", .str colors_semantic_warning_200),
      ("400", .str colors_semantic_warning_400),
      ("500", .str colors_semantic_warning_500)]),
    ("info", .node [
      ("100", .str colors_semantic_info_100),
      ("200", .str colors_semantic_info_200),
      ("500", .str colors_semantic_info_500),
      ("600", .str colors_semantic_info_600)])])]

/-- `getColor` from `packages/tokens/src/base/colors.ts` (lines 90-107):
walk the segments; a missing segment throws the not-found error naming the
path, and a final value that is not a string throws the type error. -/
def getColor (path : String) : Except TokenError String :=
  match walk colors (splitPath path) with
  | none => .error (.notFound path)
  | some (.str s) => .ok s
  | some _ => .error (.typeError path)

/-! The hex→rgb channel extraction evaluated at module load in
`packages/tokens/src/base/shadows.ts`:
`` hex.replace('#', '').match(/.{2}/g)?.map(hex => parseInt(hex, 16)).join(' ') ``.
Each piece is embedded separately below. -/

/-- `replace('#', '')` with a string pattern replaces only the first
occurrence: drop the first `'#'` character, keep everything else. -/
def removeFirstHashAux : List Char → List Char
  | [] => []
  | c :: rest => if c = '#' then rest else c :: removeFirstHashAux rest

/-- `hex.replace('#', '')` on the character list of the string. -/
def removeFirstHash (s : String) : String :=
  String.mk (removeFirstHashAux s.data)

/-- `match(/.{2}/g)`: split into consecutive two-character groups, dropping
a trailing unpaired character (the regex only matches complete pairs). -/
def pairs2 : List Char → List String
  | a :: b :: rest => String.mk [a, b] :: pairs2 rest
  | _ => []

/-- Value of one hexadecimal digit.  Embeds `parseInt(-, 16)` digit handling
for well-formed hex input; every source colour is six lowercase-or-digit hex
characters, so `parseInt`'s NaN/prefix behaviour never arises. -/
def hexDigitVal (c : Char) : Nat :=
  if '0' ≤ c ∧ c ≤ '9' then c.toNat - '0'.toNat
  else if 'a' ≤ c ∧ c ≤ 'f' then c.toNat - 'a'.toNat + 10
  else if 'A' ≤ c ∧ c ≤ 'F' then c.toNat - 'A'.toNat + 10
  else 0

/-- `parseInt(s, 16)` on a well-formed hex pair. -/
def parseHex (s : String) : Nat :=
  s.data.foldl (fun acc c => 16 * acc + hexDigitVal c) 0

/-- The whole derivation: split the hex colour into two-character pairs,
parse each as base 16 and join the decimal renderings with spaces
(`map(hex => parseInt(hex, 16)).join(' ')`). -/
def hexChannels (hex : String) : String :=
  String.intercalate " " ((pairs2 (removeFirstHash hex).data).map (fun p => toString (parseHex p)))

/-- The `shadows` token tree of `packages/tokens/src/base/shadows.ts`; the
derived colour entries are computed with `hexChannels` from the imported
colour constants, exactly as the template literals in the source do at
module-evaluation time. -/
def shadows : TokenTree := .node [
  ("elevation", .node [
    ("none", .str "none"),
    ("xs", .str "0 1px 2px 0 rgb(0 0 0 / 0.05)"),
    ("sm", .str "0 1px 3px 0 rgb(0 0 0 / 0.1), 0 1px 2px 0 rgb(0 0 0 / 0.06)"),
    ("md", .str "0 4px 6px -1px rgb(0 0 0 / 0.1), 0 2px 4px -1px rgb(0 0 0 / 0.06)"),
    ("lg", .str "0 10px 15px -3px rgb(0 0 0 / 0.1), 0 4px 6px -2px rgb(0 0 0 / 0.05)"),
    ("xl", .str "0 20px 25px -5px rgb(0 0 0 / 0.1), 0 10px 10px -5px rgb(0 0 0 / 0.04)"),
    ("2xl", .str "0 25px 50px -12px rgb(0 0 0 / 0.25)"),
    ("custom", .str "0px 6px 20px 0px rgba(0, 0, 0, 0.2)")]),
  ("colors", .node [
    ("default", .str "rgb(0 0 0 / 0.1)"),
    ("subtle", .str "rgb(0 0 0 / 0.05)"),
    ("strong", .str "rgb(0 0 0 / 0.25)"),
    ("primary", .str ("rgb(" ++ hexChannels colors_primary_950 ++ " / 0.1)")),
    ("secondary", .str ("rgb(" ++ hexChannels colors_secondary_500 ++ " / 0.1)")),
    ("success", .str ("rgb(" ++ hexChannels colors_semantic_success_500 ++ " / 0.2)")),
    ("error", .str ("rgb(" ++ hexChannels colors_semantic_error_500 ++ " / 0.2)")),
    ("warning", .str ("rgb(" ++ hexChannels colors_semantic_warning_500 ++ " / 0.2)")),
    ("info", .str ("rgb(" ++ hexChannels colors_semantic_info_500 ++ " / 0.2)")),
    ("email", .node [
      ("button", .str "rgba(79, 70, 229, 0.3)"),
      ("card", .str "rgba(0, 0, 0, 0.1)")])]),
  ("interactive", .node [
    ("hover", .node [
      ("subtle", .str "0 4px 6px -1px rgb(0 0 0 / 0.1), 0 2px 4px -1px rgb(0 0 0 / 0.06)"),
      ("moderate", .str "0 10px 15px -3px rgb(0 0 0 / 0.1), 0 4px 6px -2px rgb(0 0 0 / 0.05)"),
      ("strong", .str "0 20px 25px -5px rgb(0 0 0 / 0.1), 0 10px 10px -5px rgb(0 0 0 / 0.04)")]),
    ("focus", .node [
      ("default", .str ("0 0 0 3px rgb(" ++ hexChannels colors_primary_950 ++ " / 0.1)")),
      ("error", .str ("0 0 0 3px rgb(" ++ hexChannels colors_semantic_error_500 ++ " / 0.1)")),
      ("success", .str ("0 0 0 3px rgb(" ++ hexChannels colors_semantic_success_500 ++ " / 0.1)"))]),
    ("active", .node [
      ("pressed", .str "0 1px 2px 0 rgb(0 0 0 / 0.05)"),
      ("selected", .str "0 0 0 2px rgb(0 0 0 / 0.1)")]),
    ("disabled", .node [
      ("shadow", .str "0 1px 2px 0 rgb(0 0 0 / 0.05)"),
      ("opacity", .str "0.5")])]),
  ("semantic", .node [
    ("success", .node [
      ("subtle", .str ("0 1px 3px 0 rgb(" ++ hexChannels colors_semantic_success_500 ++ " / 0.1)")),
      ("moderate", .str ("0 4px 6px -1px rgb(" ++ hexChannels colors_semantic_success_500 ++ " / 0.1)")),
      ("strong", .str ("0 10px 15px -3px rgb(" ++ hexChannels colors_semantic_success_500 ++ " / 0.2)"))]),
    ("error", .node [
      ("subtle", .str ("0 1px 3px 0 rgb(" ++ hexChannels colors_semantic_error_500 ++ " / 0.1)")),
      ("moderate", .str ("0 4px 6px -1px rgb(" ++ hexChannels colors_semantic_error_500 ++ " / 0.1)")),
      ("strong", .str ("0 10px 15px -3px rgb(" ++ hexChannels colors_semantic_error_500 ++ " / 0.2)"))]),
    ("warning", .node [
      ("subtle", .str ("0 1px 3px 0 rgb(" ++ hexChannels colors_semantic_warning_500 ++ " / 0.1)")),
      ("moderate", .str ("0 4px 6px -1px rgb(" ++ hexChannels colors_semantic_warning_500 ++ " / 0.1)")),
      ("strong", .str ("0 10px 15px -3px rgb(" ++ hexChannels colors_semantic_warning_500 ++ " / 0.2)"))]),
    ("info", .node [
      ("subtle", .str ("0 1px 3px 0 rgb(" ++ hexChannels colors_semantic_info_500 ++ " / 0.1)")),
      ("moderate", .str ("0 4px 6px -1px rgb(" ++ hexChannels colors_semantic_info_500 ++ " / 0.1)")),
      ("strong", .str ("0 10px 15px -3px rgb(" ++ hexChannels colors_semantic_info_500 ++ " / 0.2)"))])]),
  ("components", .node [
    ("card", .node [
      ("skeleton", .str "0 1px 3px 0 rgb(0 0 0 / 0.1), 0 1px 2px 0 rgb(0 0 0 / 0.06)"),
      ("default", .str "0px 6px 20px 0px rgba(0, 0, 0, 0.2)"),
      ("interactive", .node [
        ("default", .str "0px 6px 20px 0px rgba(0, 0, 0, 0.2)"),
        ("hover", .str "0 10px 15px -3px rgb(0 0 0 / 0.1), 0 4px 6px -2px rgb(0 0 0 / 0.05)")]),
      ("elevated", .str "0 20px 25px -5px rgb(0 0 0 / 0.1), 0 10px 10px -5px rgb(0 0 0 / 0.04)")]),
    ("button", .node [
      ("primary", .str "none"),
      ("secondary", .str "0 1px 3px 0 rgb(0 0 0 / 0.1), 0 1px 2px 0 rgb(0 0 0 / 0.06)"),
      ("outline", .str "0 1px 3px 0 rgb(0 0 0 / 0.1), 0 1px 2px 0 rgb(0 0 0 / 0.06)"),
      ("floating", .str "0px 6px 20px 0px rgba(0, 0, 0, 0.2)"),
      ("hover", .node [
        ("secondary", .str "0 4px 6px -1px rgb(0 0 0 / 0.1), 0 2px 4px -1px rgb(0 0 0 / 0.06)"),
        ("outline", .str "0 4px 6px -1px rgb(0 0 0 / 0.1), 0 2px 4px -1px rgb(0 0 0 / 0.06)")])]),
    ("modal", .node [
      ("default", .str "0 20px 25px -5px rgb(0 0 0 / 0.1), 0 10px 10px -5px rgb(0 0 0 / 0.04)"),
      ("large", .str "0 25px 50px -12px rgb(0 0 0 / 0.25)"),
      ("backdrop", .str "rgba(0, 0, 0, 0.5)")]),
    ("dropdown", .node [
      ("default", .str "0px 6px 20px 0px rgba(0, 0, 0, 0.2)"),
      ("admin", .str "0 10px 15px -3px rgb(0 0 0 / 0.1), 0 4px 6px -2px rgb(0 0 0 / 0.05)"),
      ("select", .str "0 10px 15px -3px rgb(0 0 0 / 0.1), 0 4px 6px -2px rgb(0 0 0 / 0.05)")]),
    ("navigation", .node [
      ("header", .str "0 1px 3px 0 rgb(0 0 0 / 0.1), 0 1px 2px 0 rgb(0 0 0 / 0.06)"),
      ("mobile", .str "0 10px 15px -3px rgb(0 0 0 / 0.1), 0 4px 6px -2px rgb(0 0 0 / 0.05)"),
      ("popover", .str "0px 6px 20px 0px rgba(0, 0, 0, 0.2)")]),
    ("form", .node [
      ("input", .str "none"),
      ("inputFocus", .str ("0 0 0 2px rgb(" ++ hexChannels colors_primary_950 ++ " / 0.1)")),
      ("inputError", .str ("0 0 0 2px rgb(" ++ hexChannels colors_semantic_error_500 ++ " / 0.1)")),
      ("container", .str "0px 6px 20px 0px rgba(0, 0, 0, 0.2)")]),
    ("tooltip", .node [
      ("default", .str "0px 6px 20px 0px rgba(0, 0, 0, 0.2)"),
      ("subtle", .str "0 4px 6px -1px rgb(0 0 0 / 0.1), 0 2px 4px -1px rgb(0 0 0 / 0.06)")]),
    ("loading", .node [
      ("skeleton", .str "0 1px 3px 0 rgb(0 0 0 / 0.1), 0 1px 2px 0 rgb(0 0 0 / 0.06)"),
      ("spinner", .str "none")])]),
  ("special", .node [
    ("inner", .node [
      ("subtle", .str "inset 0 1px 2px 0 rgb(0 0 0 / 0.05)"),
      ("moderate", .str "inset 0 2px 4px 0 rgb(0 0 0 / 0.1)"),
      ("strong", .str "inset 0 4px 8px 0 rgb(0 0 0 / 0.15)")]),
    ("glow", .node [
      ("primary", .str ("0 0 20px rgb(" ++ hexChannels colors_primary_950 ++ " / 0.3)")),
      ("success", .str ("0 0 20px rgb(" ++ hexChannels colors_semantic_success_500 ++ " / 0.3)")),
      ("error", .str ("0 0 20px rgb(" ++ hexChannels colors_semantic_error_500 ++ " / 0.3)")),
      ("warning", .str ("0 0 20px rgb(" ++ hexChannels colors_semantic_warning_500 ++ " / 0.3)")),
      ("info", .str ("0 0 20px rgb(" ++ hexChannels colors_semantic_info_500 ++ " / 0.3)"))]),
    ("layered", .node [
      ("card", .str "0 1px 3px 0 rgb(0 0 0 / 0.1), 0 1px 2px 0 rgb(0 0 0 / 0.06), 0 0 0 1px rgb(0 0 0 / 0.05)"),
      ("modal", .str "0 20px 25px -5px rgb(0 0 0 / 0.1), 0 10px 10px -5px rgb(0 0 0 / 0.04), 0 0 0 1px rgb(0 0 0 / 0.05)")]),
    ("email", .node [
      ("button", .str "0 4px 12px rgba(79, 70, 229, 0.3)"),
      ("card", .str "0 4px 6px -1px rgba(0, 0, 0, 0.1)"),
      ("container", .str "0 2px 4px rgba(0, 0, 0, 0.1)")])]),
  ("utilities", .node [
    ("none", .str "none"),
    ("subtle", .str "0 1px 3px 0 rgb(0 0 0 / 0.1), 0 1px 2px 0 rgb(0 0 0 / 0.06)"),
    ("default", .str "0 4px 6px -1px rgb(0 0 0 / 0.1), 0 2px 4px -1px rgb(0 0 0 / 0.06)"),
    ("moderate", .str "0 10px 15px -3px rgb(0 0 0 / 0.1), 0 4px 6px -2px rgb(0 0 0 / 0.05)"),
    ("strong", .str "0 20px 25px -5px rgb(0 0 0 / 0.1), 0 10px 10px -5px rgb(0 0 0 / 0.04)"),
    ("custom", .str "0px 6px 20px 0px rgba(0, 0, 0, 0.2)"),
    ("transition", .str "box-shadow 0.15s ease-in-out"),
    ("transitionAll", .str "all 0.15s ease-in-out"),
    ("ring", .str ("0 0 0 2px rgb(" ++ hexChannels colors_primary_950 ++ " / 0.1)")),
    ("ringError", .str ("0 0 0 2px rgb(" ++ hexChannels colors_semantic_error_500 ++ " / 0.1)")),
    ("ringSuccess", .str ("0 0 0 2px rgb(" ++ hexChannels colors_semantic_success_500 ++ " / 0.1)"))])]

/-- The `spacing` token tree of `packages/tokens/src/base/spacing.ts`. -/
def spacing : TokenTree := .node [
  ("component", .node [
    ("xs", .str "0.25rem"),
    ("sm", .str "0.5rem"),
    ("md", .str "1rem"),
    ("lg", .str "1.5rem"),
    ("xl", .str "2rem"),
    ("2xl", .str "3rem")]),
  ("layout", .node [
    ("xs", .str "1rem"),
    ("sm", .str "2rem"),
    ("md", .str "3rem"),
    ("lg", .str "4rem"),
    ("xl", .str "6rem"),
    ("2xl", .str "12rem")]),
  ("grid", .node [
    ("xs", .str "0.25rem"),
    ("sm", .str "0.5rem"),
    ("md", .str "1rem"),
    ("lg", .str "1.5rem"),
    ("xl", .str "2rem"),
    ("2xl", .str "3rem"),
    ("3xl", .str "4rem"),
    ("4xl", .str "5rem")]),
  ("stack", .node [
    ("xs", .str "0.5rem"),
    ("sm", .str "1rem"),
    ("md", .str "1.5rem"),
    ("lg", .str "2rem")]),
  ("inline", .node [
    ("xs", .str "0.5rem"),
    ("sm", .str "0.75rem"),
    ("md", .str "1rem")]),
  ("container", .node [
    ("mobile", .str "1.5rem"),
    ("desktop", .str "4rem"),
    ("responsive", .node [
      ("standard", .node [
        ("base", .str "1.5rem"),
        ("lg", .str "4rem")]),
      ("admin", .node [
        ("base", .str "1rem"),
        ("sm", .str "1.5rem"),
        ("lg", .str "2rem")]),
      ("compact", .node [
        ("base", .str "1rem"),
        ("sm", .str "1.5rem")])])]),
  ("responsive", .node [
    ("section", .node [
      ("bottom", .node [
        ("base", .str "6rem"),
        ("sm", .str "12rem")]),
      ("top", .node [
        ("base", .str "3rem"),
        ("sm", .str "6rem")])]),
    ("gap", .node [
      ("adaptive", .node [
        ("base", .str "0.5rem"),
        ("sm", .str "1rem"),
        ("lg", .str "1.5rem")]),
      ("standard", .node [
        ("base", .str "1rem"),
        ("lg", .str "1.5rem")])])])]

/-- The `zIndex` token tree of the z-index token file. -/
def zIndex : TokenTree := .node [
  ("base", .node [
    ("behind", .num (-1)),
    ("default", .num 0),
    ("above", .num 1)]),
  ("content", .node [
    ("background", .num 0),
    ("content", .num 10),
    ("foreground", .num 20)]),
  ("navigation", .node [
    ("popover", .num 10),
    ("dropdown", .num 10),
    ("mobileMenu", .num 20),
    ("header", .num 30),
    ("adminHeader", .num 40)]),
  ("overlay", .node [
    ("backdrop", .num 40),
    ("drawer", .num 50),
    ("modal", .num 50),
    ("loading", .num 50)]),
  ("popup", .node [
    ("dropdown", .num 10),
    ("tooltip", .num 30),
    ("popover", .num 40),
    ("notification", .num 50),
    ("contextMenu", .num 50)]),
  ("sticky", .node [
    ("content", .num 30),
    ("header", .num 40),
    ("fab", .num 50),
    ("navigation", .num 50)]),
  ("maximum", .node [
    ("loading", .num 9999),
    ("emergency", .num 10000)]),
  ("components", .node [
    ("card", .node [
      ("default", .num 0),
      ("hover", .num 1),
      ("selected", .num 2)]),
    ("form", .node [
      ("dropdown", .num 10),
      ("autocomplete", .num 10),
      ("validation", .num 20),
      ("overlay", .num 50)]),
    ("navigation", .node [
      ("popover", .num 10),
      ("dropdown", .num 10),
      ("mobile", .num 20),
      ("header", .num 40)]),
    ("modal", .node [
      ("backdrop", .num 40),
      ("dialog", .num 50),
      ("loading", .num 50)]),
    ("admin", .node [
      ("sidebar", .num 50),
      ("header", .num 40),
      ("dropdown", .num 10),
      ("modal", .num 50)]),
    ("notification", .node [
      ("toast", .num 50),
      ("banner", .num 30),
      ("badge", .num 20)])]),
  ("states", .node [
    ("hover", .node [
      ("card", .num 1),
      ("button", .num 1),
      ("interactive", .num 2)]),
    ("focus", .node [
      ("element", .num 10),
      ("modal", .num 50)]),
    ("active", .node [
      ("element", .num 2),
      ("selected", .num 5)]),
    ("disabled", .node [
      ("element", .num 0)])]),
  ("utilities", .node [
    ("hide", .num (-1)),
    ("default", .num 0),
    ("raise", .num 1),
    ("above", .num 10),
    ("nav", .num 20),
    ("header", .num 40),
    ("overlay", .num 50),
    ("max", .num 9999)])]

/-- The `breakpoints` token tree of the breakpoints token file. -/
def breakpoints : TokenTree := .node [
  ("screens", .node [
    ("sm", .str "640px"),
    ("md", .str "768px"),
    ("lg", .str "1024px"),
    ("xl", .str "1280px"),
    ("2xl", .str "1536px")]),
  ("containers", .node [
    ("sm", .str "640px"),
    ("md", .str "768px"),
    ("lg", .str "1024px"),
    ("xl", .str "1280px"),
    ("2xl", .str "1536px"),
    ("content", .node [
      ("xs", .str "320px"),
      ("sm", .str "384px"),
      ("md", .str "448px"),
      ("lg", .str "512px"),
      ("xl", .str "576px"),
      ("2xl", .str "672px"),
      ("3xl", .str "768px"),
      ("4xl", .str "896px"),
      ("5xl", .str "1024px")])]),
  ("grid", .node [
    ("columns", .node [
      ("mobile", .num 1),
      ("tablet", .num 2),
      ("desktop", .num 3),
      ("wide", .num 4)]),
    ("patterns", .node [
      ("standard", .node [
        ("base", .num 1),
        ("lg", .num 2),
        ("2xl", .num 3)]),
      ("admin", .node [
        ("base", .num 2),
        ("md", .num 4)]),
      ("features", .node [
        ("base", .num 1),
        ("sm", .num 2)]),
      ("coverage", .node [
        ("base", .num 2),
        ("sm", .num 3),
        ("lg", .num 4)])])]),
  ("typography", .node [
    ("headings", .node [
      ("hero", .node [
        ("base", .str "3rem"),
        ("sm", .str "3.75rem")]),
      ("section", .node [
        ("base", .str "1.5rem"),
        ("sm", .str "2.25rem")]),
      ("subsection", .node [
        ("base", .str "1.25rem"),
        ("sm", .str "1.5rem")])]),
    ("body", .node [
      ("default", .node [
        ("base", .str "0.875rem"),
        ("sm", .str "1rem")]),
      ("large", .node [
        ("base", .str "1rem"),
        ("sm", .str "1.125rem")])])]),
  ("spacing", .node [
    ("container", .node [
      ("standard", .node [
        ("base", .str "1.5rem"),
        ("lg", .str "4rem")]),
      ("admin", .node [
        ("base", .str "1rem"),
        ("sm", .str "1.5rem"),
        ("lg", .str "2rem")]),
      ("compact", .node [
        ("base", .str "1rem"),
        ("sm", .str "1.5rem")])]),
    ("section", .node [
      ("bottom", .node [
        ("base", .str "6rem"),
        ("sm", .str "12rem")]),
      ("top", .node [
        ("base", .str "3rem"),
        ("sm", .str "6rem")]),
      ("combined", .node [
        ("base", .str "3rem"),
        ("sm", .str "6rem")])]),
    ("gap", .node [
      ("standard", .node [
        ("base", .str "1rem"),
        ("lg", .str "1.5rem")]),
      ("small", .node [
        ("base", .str "0.5rem"),
        ("sm", .str "1rem")]),
      ("large", .node [
        ("base", .str "1.5rem"),
        ("lg", .str "2rem")])])]),
  ("layout", .node [
    ("direction", .node [
      ("standard", .node [
        ("base", .str "column"),
        ("sm", .str "row")]),
      ("reverse", .node [
        ("base", .str "row"),
        ("sm", .str "column")])]),
    ("visibility", .node [
      ("desktop", .node [
        ("base", .str "hidden"),
        ("sm", .str "flex")]),
      ("mobile", .node [
        ("base", .str "block"),
        ("sm", .str "hidden")]),
      ("responsive", .node [
        ("base", .str "hidden"),
        ("md", .str "block")])]),
    ("basis", .node [
      ("half", .node [
        ("base", .str "100%"),
        ("md", .str "50%")]),
      ("third", .node [
        ("base", .str "100%"),
        ("lg", .str "33.333333%")]),
      ("quarter", .node [
        ("base", .str "100%"),
        ("xl", .str "25%")])])]),
  ("navigation", .node [
    ("mobile", .node [
      ("hamburger", .node [
        ("show", .str "0px"),
        ("hide", .str "768px")]),
      ("overlay", .node [
        ("show", .str "0px"),
        ("hide", .str "1024px")])]),
    ("desktop", .node [
      ("main", .node [
        ("show", .str "768px"),
        ("hide", .str "0px")]),
      ("secondary", .node [
        ("show", .str "1024px"),
        ("hide", .str "0px")])]),
    ("container", .node [
      ("header", .node [
        ("base", .str "1.5rem"),
        ("lg", .str "4rem")]),
      ("height", .node [
        ("mobile", .str "4rem"),
        ("desktop", .str "5rem")])])]),
  ("components", .node [
    ("button", .node [
      ("padding", .node [
        ("base", .node [
          ("y", .str "0.625rem"),
          ("x", .str "1.5rem")]),
        ("sm", .node [
          ("y", .str "0.75rem"),
          ("x", .str "2rem")])]),
      ("text", .node [
        ("base", .str "0.875rem"),
        ("sm", .str "1rem")])]),
    ("card", .node [
      ("padding", .node [
        ("base", .str "1rem"),
        ("sm", .str "1.5rem"),
        ("lg", .str "2rem")]),
      ("gap", .node [
        ("base", .str "1rem"),
        ("sm", .str "1.5rem")])]),
    ("form", .node [
      ("container", .node [
        ("base", .str "32rem"),
        ("sm", .str "42rem")]),
      ("padding", .node [
        ("base", .str "1.5rem"),
        ("sm", .str "2.5rem")])]),
    ("modal", .node [
      ("width", .node [
        ("base", .str "100%"),
        ("sm", .str "28rem"),
        ("lg", .str "32rem")]),
      ("padding", .node [
        ("base", .str "1rem"),
        ("sm", .str "1.5rem")])])]),
  ("utilities", .node [
    ("show", .node [
      ("mobile", .node [
        ("base", .str "block"),
        ("sm", .str "hidden")]),
      ("tablet", .node [
        ("base", .str "hidden"),
        ("sm", .str "block"),
        ("lg", .str "hidden")]),
      ("desktop", .node [
        ("base", .str "hidden"),
        ("lg", .str "block")])]),
    ("textAlign", .node [
      ("center", .node [
        ("base", .str "center"),
        ("sm", .str "left")]),
      ("responsive", .node [
        ("base", .str "left"),
        ("sm", .str "center"),
        ("lg", .str "left")])]),
    ("margin", .node [
      ("section", .node [
        ("base", .str "3rem"),
        ("sm", .str "6rem")]),
      ("component", .node [
        ("base", .str "1rem"),
        ("sm", .str "2rem")])]),
    ("padding", .node [
      ("container", .node [
        ("base", .str "1.5rem"),
        ("lg", .str "4rem")]),
      ("section", .node [
        ("base", .str "2rem"),
        ("sm", .str "3rem")])])])]

/-- The `typography` token tree of `packages/tokens/src/base/typography.ts`;
its colour entries reference the imported colour constants. -/
def typography : TokenTree := .node [
  ("fontFamily", .node [
    ("sans", .arr [.str "var(--font-inter)", .str "Inter", .str "system-ui", .str "-apple-system", .str "BlinkMacSystemFont", .str "Segoe UI", .str "Roboto", .str "Helvetica Neue", .str "Arial", .str "sans-serif"]),
    ("display", .arr [.str "var(--font-poppins)", .str "Poppins", .str "system-ui", .str "-apple-system", .str "BlinkMacSystemFont", .str "Segoe UI", .str "sans-serif"]),
    ("mono", .arr [.str "ui-monospace", .str "SFMono-Regular", .str "Menlo", .str "Monaco", .str "Consolas", .str "Liberation Mono", .str "Courier New", .str "monospace"])]),
  ("fontSize", .node [
    ("xs", .arr [.str "0.75rem", .node [
        ("lineHeight", .str "1rem")]]),
    ("sm", .arr [.str "0.875rem", .node [
        ("lineHeight", .str "1.25rem")]]),
    ("base", .arr [.str "1rem", .node [
        ("lineHeight", .str "1.5rem")]]),
    ("lg", .arr [.str "1.125rem", .node [
        ("lineHeight", .str "1.75rem")]]),
    ("xl", .arr [.str "1.25rem", .node [
        ("lineHeight", .str "1.75rem")]]),
    ("2xl", .arr [.str "1.5rem", .node [
        ("lineHeight", .str "2rem")]]),
    ("3xl", .arr [.str "1.875rem", .node [
        ("lineHeight", .str "2.25rem")]]),
    ("4xl", .arr [.str "2.25rem", .node [
        ("lineHeight", .str "2.5rem")]]),
    ("5xl", .arr [.str "3rem", .node [
        ("lineHeight", .str "1")]]),
    ("6xl", .arr [.str "3.75rem", .node [
        ("lineHeight", .str "1")]])]),
  ("fontWeight", .node [
    ("normal", .str "400"),
    ("medium", .str "500"),
    ("semibold", .str "600"),
    ("bold", .str "700")]),
  ("lineHeight", .node [
    ("none", .str "1"),
    ("tight", .str "1.25"),
    ("snug", .str "1.375"),
    ("normal", .str "1.5"),
    ("relaxed", .str "1.625"),
    ("loose", .str "2"),
    ("5", .str "1.25rem")]),
  ("letterSpacing", .node [
    ("tighter", .str "-0.05em"),
    ("tight", .str "-0.025em"),
    ("normal", .str "0"),
    ("wide", .str "0.025em"),
    ("wider", .str "0.05em"),
    ("widest", .str "0.1em")]),
  ("colors", .node [
    ("primary", .str colors_primary_950),
    ("secondary", .str colors_primary_500),
    ("muted", .str colors_primary_400),
    ("inverse", .str colors_primary_50),
    ("success", .str colors_semantic_success_600),
    ("error", .str colors_semantic_error_500),
    ("warning", .str colors_semantic_warning_500),
    ("info", .str colors_semantic_info_600),
    ("link", .str colors_semantic_info_600),
    ("disabled", .str colors_primary_400)]),
  ("headings", .node [
    ("h1", .node [
      ("fontSize", .str "3.5rem"),
      ("lineHeight", .str "1"),
      ("fontWeight", .str "600"),
      ("color", .str colors_primary_950),
      ("responsive", .node [
        ("mobile", .str "3rem"),
        ("desktop", .str "3.5rem")])]),
    ("h2", .node [
      ("fontSize", .str "1.5rem"),
      ("lineHeight", .str "2rem"),
      ("fontWeight", .str "400"),
      ("color", .str colors_primary_950),
      ("variants", .node [
        ("large", .node [
          ("fontSize", .str "2.25rem"),
          ("fontWeight", .str "600")])])]),
    ("h3", .node [
      ("fontSize", .str "1.25rem"),
      ("lineHeight", .str "1.75rem"),
      ("fontWeight", .str "600"),
      ("color", .str colors_primary_950)]),
    ("h4", .node [
      ("fontSize", .str "1.125rem"),
      ("lineHeight", .str "1.75rem"),
      ("fontWeight", .str "600"),
      ("color", .str colors_primary_950)]),
    ("h5", .node [
      ("fontSize", .str "1rem"),
      ("lineHeight", .str "1.5rem"),
      ("fontWeight", .str "600"),
      ("color", .str colors_primary_950)]),
    ("h6", .node [
      ("fontSize", .str "0.875rem"),
      ("lineHeight", .str "1.25rem"),
      ("fontWeight", .str "600"),
      ("color", .str colors_primary_950)])]),
  ("body", .node [
    ("default", .node [
      ("fontSize", .str "1rem"),
      ("lineHeight", .str "1.5rem"),
      ("fontWeight", .str "400"),
      ("color", .str colors_primary_950)]),
    ("large", .node [
      ("fontSize", .str "1.125rem"),
      ("lineHeight", .str "1.75rem"),
      ("fontWeight", .str "400"),
      ("color", .str colors_primary_950)]),
    ("small", .node [
      ("fontSize", .str "0.875rem"),
      ("lineHeight", .str "1.25rem"),
      ("fontWeight", .str "400"),
      ("color", .str colors_primary_950)]),
    ("caption", .node [
      ("fontSize", .str "0.75rem"),
      ("lineHeight", .str "1rem"),
      ("fontWeight", .str "400"),
      ("color", .str colors_primary_500)])]),
  ("utilities", .node [
    ("emphasis", .node [
      ("fontWeight", .str "600"),
      ("color", .str colors_primary_950)]),
    ("strong", .node [
      ("fontWeight", .str "700"),
      ("color", .str colors_primary_950)]),
    ("subtle", .node [
      ("color", .str colors_primary_500)]),
    ("muted", .node [
      ("color", .str colors_primary_400)]),
    ("underline", .node [
      ("textDecoration", .str "underline"),
      ("textUnderlineOffset", .str "2px")]),
    ("truncate", .node [
      ("overflow", .str "hidden"),
      ("textOverflow", .str "ellipsis"),
      ("whiteSpace", .str "nowrap")]),
    ("balance", .node [
      ("textWrap", .str "balance")])]),
  ("responsive", .node [
    ("hero", .node [
      ("base", .node [
        ("fontSize", .str "3rem"),
        ("lineHeight", .str "1"),
        ("fontWeight", .str "600")]),
      ("sm", .node [
        ("fontSize", .str "3.5rem"),
        ("lineHeight", .str "1")])]),
    ("section", .node [
      ("base", .node [
        ("fontSize", .str "1.5rem"),
        ("lineHeight", .str "2rem")]),
      ("sm", .node [
        ("fontSize", .str "2.25rem"),
        ("lineHeight", .str "2.5rem")])]),
    ("body", .node [
      ("base", .node [
        ("fontSize", .str "0.875rem"),
        ("lineHeight", .str "1.25rem")]),
      ("sm", .node [
        ("fontSize", .str "1rem"),
        ("lineHeight", .str "1.5rem")])]),
    ("caption", .node [
      ("base", .node [
        ("fontSize", .str "0.75rem"),
        ("lineHeight", .str "1rem")]),
      ("md", .node [
        ("fontSize", .str "0.875rem"),
        ("lineHeight", .str "1.25rem")])])])]

/-- The `borders` token tree of the borders token file; colour entries and
composite border strings reference the imported colour constants. -/
def borders : TokenTree := .node [
  ("width", .node [
    ("none", .str "0"),
    ("thin", .str "1px"),
    ("medium", .str "2px"),
    ("thick", .str "4px")]),
  ("style", .node [
    ("solid", .str "solid"),
    ("dashed", .str "dashed"),
    ("dotted", .str "dotted"),
    ("none", .str "none")]),
  ("radius", .node [
    ("none", .str "0"),
    ("sm", .str "0.125rem"),
    ("md", .str "0.375rem"),
    ("lg", .str "0.5rem"),
    ("xl", .str "0.75rem"),
    ("2xl", .str "1rem"),
    ("full", .str "9999px")]),
  ("colors", .node [
    ("default", .str colors_secondary_200),
    ("subtle", .str colors_secondary_100),
    ("muted", .str colors_secondary_50),
    ("focus", .str colors_primary_950),
    ("active", .str colors_primary_800),
    ("hover", .str colors_secondary_400),
    ("success", .str colors_semantic_success_500),
    ("error", .str colors_semantic_error_500),
    ("warning", .str colors_semantic_warning_400),
    ("info", .str colors_semantic_info_500),
    ("divider", .str colors_secondary_100),
    ("accent", .str colors_primary_950),
    ("transparent", .str "transparent")]),
  ("rings", .node [
    ("width", .node [
      ("none", .str "0"),
      ("thin", .str "1px"),
      ("medium", .str "2px"),
      ("thick", .str "4px")]),
    ("colors", .node [
      ("focus", .str colors_primary_950),
      ("error", .str colors_semantic_error_500),
      ("success", .str colors_semantic_success_500),
      ("warning", .str colors_semantic_warning_400),
      ("info", .str colors_semantic_info_500),
      ("subtle", .str colors_secondary_100)]),
    ("offset", .node [
      ("none", .str "0"),
      ("sm", .str "1px"),
      ("md", .str "2px"),
      ("lg", .str "4px")])]),
  ("directional", .node [
    ("top", .node [
      ("default", .str ("1px solid " ++ colors_secondary_100)),
      ("thick", .str ("2px solid " ++ colors_secondary_100)),
      ("accent", .str ("1px solid " ++ colors_primary_950))]),
    ("bottom", .node [
      ("default", .str ("1px solid " ++ colors_secondary_100)),
      ("thick", .str ("2px solid " ++ colors_secondary_100)),
      ("accent", .str ("2px solid " ++ colors_primary_950)),
      ("divider", .str ("1px solid " ++ colors_secondary_100))]),
    ("left", .node [
      ("default", .str ("1px solid " ++ colors_secondary_200)),
      ("thick", .str ("4px solid " ++ colors_semantic_info_500)),
      ("accent", .str ("2px solid " ++ colors_primary_950)),
      ("warning", .str ("4px solid " ++ colors_semantic_warning_400)),
      ("error", .str ("4px solid " ++ colors_semantic_error_500))]),
    ("right", .node [
      ("default", .str ("1px solid " ++ colors_secondary_200)),
      ("divider", .str ("1px solid " ++ colors_secondary_100))])]),
  ("components", .node [
    ("input", .node [
      ("default", .node [
        ("width", .str "2px"),
        ("style", .str "solid"),
        ("color", .str colors_secondary_100),
        ("radius", .str "0.375rem"),
        ("focus", .node [
          ("width", .str "2px"),
          ("style", .str "solid"),
          ("color", .str colors_primary_950),
          ("outline", .str "none")])]),
      ("error", .node [
        ("width", .str "2px"),
        ("style", .str "solid"),
        ("color", .str colors_semantic_error_500),
        ("radius", .str "0.375rem"),
        ("background", .str colors_semantic_error_100)]),
      ("success", .node [
        ("width", .str "2px"),
        ("style", .str "solid"),
        ("color", .str colors_semantic_success_200),
        ("radius", .str "0.375rem"),
        ("background", .str colors_semantic_success_100)])]),
    ("card", .node [
      ("default", .node [
        ("width", .str "1px"),
        ("style", .str "solid"),
        ("color", .str colors_secondary_100),
        ("radius", .str "0.375rem")]),
      ("elevated", .node [
        ("width", .str "0"),
        ("style", .str "none"),
        ("color", .str "transparent"),
        ("radius", .str "0.375rem"),
        ("shadow", .str "0px 6px 20px 0px rgba(0,0,0,0.2)")]),
      ("interactive", .node [
        ("width", .str "2px"),
        ("style", .str "solid"),
        ("color", .str colors_secondary_100),
        ("radius", .str "0.375rem"),
        ("hover", .node [
          ("color", .str colors_primary_950)])])]),
    ("button", .node [
      ("primary", .node [
        ("width", .str "0"),
        ("style", .str "none"),
        ("color", .str "transparent"),
        ("radius", .str "0.375rem")]),
      ("secondary", .node [
        ("width", .str "1px"),
        ("style", .str "solid"),
        ("color", .str colors_secondary_200),
        ("radius", .str "0.375rem")]),
      ("outline", .node [
        ("width", .str "1px"),
        ("style", .str "solid"),
        ("color", .str colors_primary_950),
        ("radius", .str "0.375rem")]),
      ("ghost", .node [
        ("width", .str "0"),
        ("style", .str "none"),
        ("color", .str "transparent"),
        ("radius", .str "0.375rem")])]),
    ("modal", .node [
      ("default", .node [
        ("width", .str "0"),
        ("style", .str "none"),
        ("color", .str "transparent"),
        ("radius", .str "0.5rem"),
        ("shadow", .str "0px 6px 20px 0px rgba(0,0,0,0.2)")]),
      ("content", .node [
        ("width", .str "1px"),
        ("style", .str "solid"),
        ("color", .str colors_secondary_100),
        ("radius", .str "0.375rem")])]),
    ("table", .node [
      ("header", .node [
        ("width", .str "2px"),
        ("style", .str "solid"),
        ("color", .str colors_secondary_100),
        ("direction", .str "bottom")]),
      ("row", .node [
        ("width", .str "1px"),
        ("style", .str "solid"),
        ("color", .str colors_secondary_100),
        ("direction", .str "bottom")]),
      ("cell", .node [
        ("width", .str "1px"),
        ("style", .str "solid"),
        ("color", .str colors_secondary_200)])]),
    ("spinner", .node [
      ("default", .node [
        ("width", .str "2px"),
        ("style", .str "solid"),
        ("color", .str colors_primary_950),
        ("transparent", .str "transparent"),
        ("radius", .str "9999px")]),
      ("light", .node [
        ("width", .str "2px"),
        ("style", .str "solid"),
        ("color", .str colors_primary_50),
        ("transparent", .str "transparent"),
        ("radius", .str "9999px")])])]),
  ("states", .node [
    ("focus", .node [
      ("ring", .str ("2px solid " ++ colors_primary_950)),
      ("outline", .str "none"),
      ("background", .str colors_primary_50)]),
    ("hover", .node [
      ("border", .str ("1px solid " ++ colors_secondary_400)),
      ("ring", .str ("2px solid " ++ colors_secondary_200))]),
    ("active", .node [
      ("border", .str ("2px solid " ++ colors_primary_950)),
      ("ring", .str ("2px solid " ++ colors_primary_950))]),
    ("disabled", .node [
      ("border", .str ("1px solid " ++ colors_secondary_200)),
      ("opacity", .str "0.5")]),
    ("error", .node [
      ("border", .str ("2px solid " ++ colors_semantic_error_500)),
      ("ring", .str ("2px solid " ++ colors_semantic_error_500)),
      ("background", .str colors_semantic_error_100)]),
    ("success", .node [
      ("border", .str ("2px solid " ++ colors_semantic_success_500)),
      ("ring", .str ("2px solid " ++ colors_semantic_success_200)),
      ("background", .str colors_semantic_success_100)])]),
  ("utilities", .node [
    ("none", .str "none"),
    ("default", .str ("1px solid " ++ colors_secondary_200)),
    ("subtle", .str ("1px solid " ++ colors_secondary_100)),
    ("thick", .str ("2px solid " ++ colors_secondary_200)),
    ("accent", .str ("2px solid " ++ colors_primary_950)),
    ("focusRing", .str ("0 0 0 2px " ++ colors_primary_950)),
    ("dividerHorizontal", .str ("1px solid " ++ colors_secondary_100)),
    ("dividerVertical", .str ("1px solid " ++ colors_secondary_200)),
    ("calloutInfo", .str ("4px solid " ++ colors_semantic_info_500)),
    ("calloutWarning", .str ("4px solid " ++ colors_semantic_warning_400)),
    ("calloutError", .str ("4px solid " ++ colors_semantic_error_500)),
    ("calloutSuccess", .str ("4px solid " ++ colors_semantic_success_500))])]

/-- `getSpacing` from `packages/tokens/src/base/spacing.ts` (lines 156-173):
same traversal as `getColor`, with the string leaf check. -/
def getSpacing (path : String) : Except TokenError String :=
  match walk spacing (splitPath path) with
  | none => .error (.notFound path)
  | some (.str s) => .ok s
  | some _ => .error (.typeError path)

/-- `getZIndex` from the z-index token file (lines 228-245): same traversal,
with a number leaf check (`typeof value !== 'number'`). -/
def getZIndex (path : String) : Except TokenError Int :=
  match walk zIndex (splitPath path) with
  | none => .error (.notFound path)
  | some (.num n) => .ok n
  | some _ => .error (.typeError path)

/-- `getShadow` from `packages/tokens/src/base/shadows.ts` (lines 317-330):
same traversal, but the function is typed `any` and performs no leaf check —
whatever node the walk reaches is returned. -/
def getShadow (path : String) : Except TokenError TokenTree :=
  match walk shadows (splitPath path) with
  | none => .error (.notFound path)
  | some t => .ok t

/-- `getBreakpoint` from the breakpoints token file: same traversal as
`getShadow`, returning `any` with no leaf check. -/
def getBreakpoint (path : String) : Except TokenError TokenTree :=
  match walk breakpoints (splitPath path) with
  | none => .error (.notFound path)
  | some t => .ok t

/-- `getTypography` from `packages/tokens/src/base/typography.ts`
(lines 405-419): same traversal, returning `any` with no leaf check. -/
def getTypography (path : String) : Except TokenError TokenTree :=
  match walk typography (splitPath path) with
  | none => .error (.notFound path)
  | some t => .ok t

/-- `getBorder` from the borders token file (lines 370-383): same traversal,
returning `any` with no leaf check. -/
def getBorder (path : String) : Except TokenError TokenTree :=
  match walk borders (splitPath path) with
  | none => .error (.notFound path)
  | some t => .ok t

/-- Modelled from the spec: the bulk export of the Token Store, "the set of
all category trees, concatenated into one namespace at the topmost level"
(spec section 4.1).  The repository ships only the per-category getters, so
this top-level namespace is taken from the spec's words, with the category
roots named as in the spec's data model. -/
def tokensRoot : TokenTree := .node [
  ("colors", colors),
  ("spacing", spacing),
  ("shadows", shadows),
  ("borders", borders),
  ("zIndex", zIndex),
  ("typography", typography),
  ("breakpoints", breakpoints)]

/-- Modelled from the spec: the unified `get(path)` of spec section 4.1 over
the bulk-exported namespace — split on `.`, walk segment by segment, fail
with the not-found error naming the full path if a segment is absent, fail
with the type error if the final value is not a leaf primitive (the spec's
leaf primitives are strings, numbers and arrays).  The repository realises
this contract through the per-category getters, where the leading category
segment picks the getter and the rest of the path is passed to it. -/
def tokensGet (path : String) : Except TokenError TokenTree :=
  match walk tokensRoot (splitPath path) with
  | none => .error (.notFound path)
  | some (.node _) => .error (.typeError path)
  | some t => .ok t

/-! The Button variant resolver,
`packages/components/src/primitives/Button/variants.ts`.  The exported
`getButtonVariants` returns a closure over no state; the closure is embedded
directly.  Its `{ variant = 'primary', size = 'md' }` destructuring applies
the default when the property is absent, modelled by `Option.getD`; the
selection is the pair of optional axis values. -/

/-- `baseClasses` (variants.ts line 4). -/
def baseClasses : String :=
  "inline-flex items-center justify-center rounded-md font-medium transition-colors focus:outline-none focus:ring-2 focus:ring-offset-2 disabled:opacity-50 disabled:cursor-not-allowed"

/-- `variantClasses.primary` (variants.ts line 7). -/
def variantClassesPrimary : String :=
  "bg-blue-600 text-white hover:bg-blue-700 focus:ring-blue-500"

/-- `variantClasses.secondary` (variants.ts line 8). -/
def variantClassesSecondary : String :=
  "bg-gray-200 text-gray-900 hover:bg-gray-300 focus:ring-gray-500"

/-- `variantClasses.outline` (variants.ts line 9). -/
def variantClassesOutline : String :=
  "border border-gray-300 bg-transparent hover:bg-gray-50 focus:ring-gray-500"

/-- `variantClasses.ghost` (variants.ts line 10). -/
def variantClassesGhost : String :=
  "bg-transparent hover:bg-gray-100 focus:ring-gray-500"

/-- The `variantClasses` object literal (variants.ts lines 6-11), as a
finite lookup over its four own keys. -/
def variantClasses (v : String) : Option String :=
  if v = "primary" then some variantClassesPrimary
  else if v = "secondary" then some variantClassesSecondary
  else if v = "outline" then some variantClassesOutline
  else if v = "ghost" then some variantClassesGhost
  else none

/-- `sizeClasses.sm` (variants.ts line 14). -/
def sizeClassesSm : String := "h-8 px-3 text-sm"

/-- `sizeClasses.md` (variants.ts line 15). -/
def sizeClassesMd : String := "h-10 px-4 text-base"

/-- `sizeClasses.lg` (variants.ts line 16). -/
def sizeClassesLg : String := "h-12 px-6 text-lg"

/-- The `sizeClasses` object literal (variants.ts lines 13-17). -/
def sizeClasses (s : String) : Option String :=
  if s = "sm" then some sizeClassesSm
  else if s = "md" then some sizeClassesMd
  else if s = "lg" then some sizeClassesLg
  else none

/-- The resolver returned by `getButtonVariants` (variants.ts lines 2-21):
base classes, then `variantClasses[variant] || variantClasses.primary`, then
`sizeClasses[size] || sizeClasses.md`, joined by single spaces through the
template literal.  Every fragment is a non-empty string literal, so the `||`
fallback fires exactly when the key is not one of the object's own keys,
which is `Option.getD`. -/
def getButtonVariants (variant size : Option String) : String :=
  let v := variant.getD "primary"
  let s := size.getD "md"
  baseClasses ++ " " ++ (variantClasses v).getD variantClassesPrimary ++ " " ++ (sizeClasses s).getD sizeClassesMd

/-- The `cn` class-combining utility of the components package
(`classes.filter(Boolean).join(' ')`): drop falsy entries and join the rest
with single spaces.  String inputs are modelled directly, with `""` standing
for the falsy inputs (undefined, null, false and the empty string are all
dropped by `filter(Boolean)`). -/
def cn (classes : List String) : String :=
  String.intercalate " " (classes.filter (fun c => c != ""))

/-- Class-token decomposition of a space-joined class string, used to state
duplicate-freeness of resolver output. -/
def classTokens (s : String) : List String :=
  (s.data.splitOn ' ').map String.mk

/-- The twelve concrete class strings the Button resolver can produce
(four variants times three sizes). -/
def buttonOutputs : List String :=
  [baseClasses ++ " " ++ variantClassesPrimary ++ " " ++ sizeClassesSm,
   baseClasses ++ " " ++ variantClassesPrimary ++ " " ++ sizeClassesMd,
   baseClasses ++ " " ++ variantClassesPrimary ++ " " ++ sizeClassesLg,
   baseClasses ++ " " ++ variantClassesSecondary ++ " " ++ sizeClassesSm,
   baseClasses ++ " " ++ variantClassesSecondary ++ " " ++ sizeClassesMd,
   baseClasses ++ " " ++ variantClassesSecondary ++ " " ++ sizeClassesLg,
   baseClasses ++ " " ++ variantClassesOutline ++ " " ++ sizeClassesSm,
   baseClasses ++ " " ++ variantClassesOutline ++ " " ++ sizeClassesMd,
   baseClasses ++ " " ++ variantClassesOutline ++ " " ++ sizeClassesLg,
   baseClasses ++ " " ++ variantClassesGhost ++ " " ++ sizeClassesSm,
   baseClasses ++ " " ++ variantClassesGhost ++ " " ++ sizeClassesMd,
   baseClasses ++ " " ++ variantClassesGhost ++ " " ++ sizeClassesLg]

lemma getButtonVariants_eq (v s : Option String) :
    getButtonVariants v s =
      baseClasses ++ " " ++ (variantClasses (v.getD "primary")).getD variantClassesPrimary
        ++ " " ++ (sizeClasses (s.getD "md")).getD sizeClassesMd := rfl

lemma variantClasses_primary : variantClasses "primary" = some variantClassesPrimary := rfl

lemma sizeClasses_md : sizeClasses "md" = some sizeClassesMd := rfl

lemma variantFrag_cases (x : String) :
    (variantClasses x).getD variantClassesPrimary = variantClassesPrimary ∨
    (variantClasses x).getD variantClassesPrimary = variantClassesSecondary ∨
    (variantClasses x).getD variantClassesPrimary = variantClassesOutline ∨
    (variantClasses x).getD variantClassesPrimary = variantClassesGhost := by
  unfold variantClasses
  split_ifs <;> simp

lemma sizeFrag_cases (x : String) :
    (sizeClasses x).getD sizeClassesMd = sizeClassesSm ∨
    (sizeClasses x).getD sizeClassesMd = sizeClassesMd ∨
    (sizeClasses x).getD sizeClassesMd = sizeClassesLg := by
  unfold sizeClasses
  split_ifs <;> simp

lemma getButtonVariants_mem (v s : Option String) :
    getButtonVariants v s ∈ buttonOutputs := by
  rw [getButtonVariants_eq]
  rcases variantFrag_cases (v.getD "primary") with h | h | h | h <;>
    rcases sizeFrag_cases (s.getD "md") with h2 | h2 | h2 <;>
      rw [h, h2] <;> simp [buttonOutputs]

lemma buttonOutputs_ne_empty : ∀ x ∈ buttonOutputs, x ≠ "" := by decide

lemma buttonOutputs_nodup_tokens : ∀ x ∈ buttonOutputs, (classTokens x).Nodup := by decide

/-- C1: with the button table, an axis whose value is absent or not one of
its allowed values resolves to the axis's default ('primary' / 'md'):
`{variant:'secondary'}` yields base + secondary fragment + md fragment, and
`{variant:'nope', size:'lg'}` yields base + primary fragment + lg fragment. -/
theorem button_axis_fallback_to_default :
    (∀ s, getButtonVariants none s = getButtonVariants (some "primary") s) ∧
    (∀ v s, variantClasses v = none →
      getButtonVariants (some v) s = getButtonVariants (some "primary") s) ∧
    (∀ v, getButtonVariants v none = getButtonVariants v (some "md")) ∧
    (∀ v s, sizeClasses s = none →
      getButtonVariants v (some s) = getButtonVariants v (some "md")) ∧
    getButtonVariants (some "secondary") none =
      baseClasses ++ " " ++ variantClassesSecondary ++ " " ++ sizeClassesMd ∧
    getButtonVariants (some "nope") (some "lg") =
      baseClasses ++ " " ++ variantClassesPrimary ++ " " ++ sizeClassesLg := by
  refine ⟨fun s => rfl, ?_, fun v => rfl, ?_, rfl, rfl⟩
  · intro v s h
    rw [getButtonVariants_eq, getButtonVariants_eq]
    simp [h, variantClasses_primary]
  · intro v s h
    rw [getButtonVariants_eq, getButtonVariants_eq]
    simp [h, sizeClasses_md]

/-- Witness for C1 at concrete inputs: 'nope' is not an allowed variant and
'xxl' is not an allowed size, and both fall back to the defaults. -/
theorem button_axis_fallback_to_default_witness :
    getButtonVariants (some "nope") (some "sm") = getButtonVariants (some "primary") (some "sm") ∧
    getButtonVariants (some "ghost") (some "xxl") = getButtonVariants (some "ghost") (some "md") :=
  ⟨button_axis_fallback_to_default.2.1 "nope" (some "sm") rfl,
   button_axis_fallback_to_default.2.2.2.1 (some "ghost") "xxl" rfl⟩

/-- C4: for every selection, including the empty selection (both axes
absent), the resolver totally returns one of its twelve non-empty class
strings and never fails; the source body contains no throw at all, so the
embedding is a total function into `String`. -/
theorem button_resolve_total :
    (∀ v s, getButtonVariants v s ∈ buttonOutputs ∧ getButtonVariants v s ≠ "") ∧
    getButtonVariants none none =
      baseClasses ++ " " ++ variantClassesPrimary ++ " " ++ sizeClassesMd := by
  refine ⟨fun v s => ⟨getButtonVariants_mem v s, ?_⟩, rfl⟩
  exact buttonOutputs_ne_empty _ (getButtonVariants_mem v s)

/-- C5: every resolver output decomposes as the base fragment first, then
the variant-axis fragment, then the size-axis fragment, in the declared
order with no reordering. -/
theorem button_fragment_order :
    ∀ v s, ∃ vf sf,
      vf ∈ [variantClassesPrimary, variantClassesSecondary, variantClassesOutline, variantClassesGhost] ∧
      sf ∈ [sizeClassesSm, sizeClassesMd, sizeClassesLg] ∧
      getButtonVariants v s = baseClasses ++ " " ++ vf ++ " " ++ sf := by
  intro v s
  refine ⟨(variantClasses (v.getD "primary")).getD variantClassesPrimary,
          (sizeClasses (s.getD "md")).getD sizeClassesMd, ?_, ?_, getButtonVariants_eq v s⟩
  · rcases variantFrag_cases (v.getD "primary") with h | h | h | h <;> rw [h] <;> simp
  · rcases sizeFrag_cases (s.getD "md") with h | h | h <;> rw [h] <;> simp

/-- C10: every variant value outside the four defined keys — including the
'destructive' value advertised by the Storybook controls — resolves to
exactly the output of 'primary' with the same size. -/
theorem button_unknown_variant_is_primary :
    (∀ v s, v ∉ ["primary", "secondary", "outline", "ghost"] →
      getButtonVariants (some v) s = getButtonVariants (some "primary") s) ∧
    (∀ s, getButtonVariants (some "destructive") s = getButtonVariants (some "primary") s) := by
  constructor
  · intro v s hv
    simp only [List.mem_cons, List.not_mem_nil, or_false, not_or] at hv
    obtain ⟨h1, h2, h3, h4⟩ := hv
    have h : variantClasses v = none := by
      unfold variantClasses
      rw [if_neg h1, if_neg h2, if_neg h3, if_neg h4]
    rw [getButtonVariants_eq, getButtonVariants_eq]
    simp [h, variantClasses_primary]
  · intro s
    rfl

/-- Witness for C10: 'destructive' is not among the defined keys, and its
output equals that of 'primary' at size 'sm'. -/
theorem button_unknown_variant_is_primary_witness :
    getButtonVariants (some "destructive") (some "sm") =
      getButtonVariants (some "primary") (some "sm") :=
  button_unknown_variant_is_primary.1 "destructive" (some "sm") (by decide)

set_option maxRecDepth 8192 in
/-- C6 counterexample: no deduplication step exists anywhere on the class
string path.  Combining the resolver's output with a class token it already
contains through the package's `cn` utility yields a strictly longer string
holding that token twice — refuting "identical tokens are deduplicated
preserving first-occurrence order, so resolving with a superset of
already-present tokens yields the same set, not a longer string". -/
theorem cn_no_dedup_counterexample :
    cn [getButtonVariants none none, "inline-flex"] =
      getButtonVariants none none ++ " " ++ "inline-flex" ∧
    (classTokens (cn [getButtonVariants none none, "inline-flex"])).count "inline-flex" = 2 ∧
    cn [getButtonVariants none none, "inline-flex"] ≠ getButtonVariants none none := by
  refine ⟨rfl, by decide, by decide⟩

set_option maxRecDepth 8192 in
/-- C6 (amended): the resolver is a pure function, so identical inputs give
identical output, and each of its outputs happens to contain no duplicate
class token because the base, variant and size fragments are pairwise
disjoint — but no deduplication is performed: `cn` only filters falsy
entries and joins, so combining an output with an already-present token
yields a longer string, not the same set. -/
theorem button_resolve_idempotent_nodup :
    (∀ v s, getButtonVariants v s = getButtonVariants v s) ∧
    (∀ v s, (classTokens (getButtonVariants v s)).Nodup) ∧
    cn [getButtonVariants none none, "inline-flex"] ≠ getButtonVariants none none := by
  refine ⟨fun v s => rfl, fun v s => ?_, by decide⟩
  exact buttonOutputs_nodup_tokens _ (getButtonVariants_mem v s)

/-- C2: in every category getter — colors, spacing, z-index, shadows,
breakpoints, typography and borders — a dotted path whose walk fails
(some segment does not name a child of the current node) produces the
not-found error carrying the full requested path; the getters are total
`Except`-valued functions, so no path silently yields undefined. -/
theorem token_getters_notfound :
    ∀ path,
      (walk colors (splitPath path) = none →
        getColor path = .error (.notFound path)) ∧
      (walk spacing (splitPath path) = none →
        getSpacing path = .error (.notFound path)) ∧
      (walk zIndex (splitPath path) = none →
        getZIndex path = .error (.notFound path)) ∧
      (walk shadows (splitPath path) = none →
        getShadow path = .error (.notFound path)) ∧
      (walk breakpoints (splitPath path) = none →
        getBreakpoint path = .error (.notFound path)) ∧
      (walk typography (splitPath path) = none →
        getTypography path = .error (.notFound path)) ∧
      (walk borders (splitPath path) = none →
        getBorder path = .error (.notFound path)) := by
  intro path
  refine ⟨?_, ?_, ?_, ?_, ?_, ?_, ?_⟩ <;> intro h <;>
    simp [getColor, getSpacing, getZIndex, getShadow, getBreakpoint, getTypography, getBorder, h]

/-- Witness for C2 at concrete invalid paths for each of the seven getters. -/
theorem token_getters_notfound_witness :
    getColor "semantic.nonexistent" = .error (.notFound "semantic.nonexistent") ∧
    getSpacing "nope" = .error (.notFound "nope") ∧
    getZIndex "nope" = .error (.notFound "nope") ∧
    getShadow "nope" = .error (.notFound "nope") ∧
    getBreakpoint "nope" = .error (.notFound "nope") ∧
    getTypography "nope" = .error (.notFound "nope") ∧
    getBorder "nope" = .error (.notFound "nope") :=
  ⟨(token_getters_notfound "semantic.nonexistent").1 rfl,
   (token_getters_notfound "nope").2.1 rfl,
   (token_getters_notfound "nope").2.2.1 rfl,
   (token_getters_notfound "nope").2.2.2.1 rfl,
   (token_getters_notfound "nope").2.2.2.2.1 rfl,
   (token_getters_notfound "nope").2.2.2.2.2.1 rfl,
   (token_getters_notfound "nope").2.2.2.2.2.2 rfl⟩

/-- C3 counterexample: the breakpoint getter does not fail with the type
error on a path resolving to an interior node — `getBreakpoint 'screens'`
returns the whole `screens` subtree, and the shadow getter likewise returns
the `colors` subtree of `shadows` rather than failing. -/
theorem getter_returns_subtree_counterexample :
    getBreakpoint "screens" =
      .ok (.node [("sm", .str "640px"), ("md", .str "768px"), ("lg", .str "1024px"),
        ("xl", .str "1280px"), ("2xl", .str "1536px")]) ∧
    getBreakpoint "screens" ≠ .error (.typeError "screens") ∧
    getShadow "special.inner" =
      .ok (.node [("subtle", .str "inset 0 1px 2px 0 rgb(0 0 0 / 0.05)"),
        ("moderate", .str "inset 0 2px 4px 0 rgb(0 0 0 / 0.1)"),
        ("strong", .str "inset 0 4px 8px 0 rgb(0 0 0 / 0.15)")]) ∧
    getShadow "special.inner" ≠ .error (.typeError "special.inner") := by
  refine ⟨rfl, fun h => Except.noConfusion h, rfl, fun h => Except.noConfusion h⟩

/-- C3 (amended): the leaf type check holds for the colors, spacing and
z-index getters — a walk ending on a non-string (respectively non-number)
value yields the type error naming the path — while the shadow, breakpoint,
typography and border getters perform no leaf check and return whatever
node the walk reaches, subtree or leaf. -/
theorem token_getters_leaf_check :
    (∀ path t, walk colors (splitPath path) = some t → t.isStr = false →
      getColor path = .error (.typeError path)) ∧
    (∀ path t, walk spacing (splitPath path) = some t → t.isStr = false →
      getSpacing path = .error (.typeError path)) ∧
    (∀ path t, walk zIndex (splitPath path) = some t → t.isNum = false →
      getZIndex path = .error (.typeError path)) ∧
    (∀ path t, walk shadows (splitPath path) = some t → getShadow path = .ok t) ∧
    (∀ path t, walk breakpoints (splitPath path) = some t → getBreakpoint path = .ok t) ∧
    (∀ path t, walk typography (splitPath path) = some t → getTypography path = .ok t) ∧
    (∀ path t, walk borders (splitPath path) = some t → getBorder path = .ok t) := by
  refine ⟨?_, ?_, ?_, ?_, ?_, ?_, ?_⟩
  · intro path t h hne
    cases t with
    | str s => simp [TokenTree.isStr] at hne
    | num n => simp [getColor, h]
    | arr es => simp [getColor, h]
    | node cs => simp [getColor, h]
  · intro path t h hne
    cases t with
    | str s => simp [TokenTree.isStr] at hne
    | num n => simp [getSpacing, h]
    | arr es => simp [getSpacing, h]
    | node cs => simp [getSpacing, h]
  · intro path t h hne
    cases t with
    | num n => simp [TokenTree.isNum] at hne
    | str s => simp [getZIndex, h]
    | arr es => simp [getZIndex, h]
    | node cs => simp [getZIndex, h]
  · intro path t h
    simp [getShadow, h]
  · intro path t h
    simp [getBreakpoint, h]
  · intro path t h
    simp [getTypography, h]
  · intro path t h
    simp [getBorder, h]

/-- Witness for C3 (amended): `colors.semantic` is an interior node, so
`getColor` fails with the type error; `zIndex.base` likewise for the number
check; `getShadow` on `elevation.custom` returns the resolved leaf. -/
theorem token_getters_leaf_check_witness :
    getColor "semantic" = .error (.typeError "semantic") ∧
    getZIndex "base" = .error (.typeError "base") ∧
    getShadow "elevation.custom" = .ok (.str "0px 6px 20px 0px rgba(0, 0, 0, 0.2)") :=
  ⟨token_getters_leaf_check.1 "semantic" _ rfl rfl,
   token_getters_leaf_check.2.2.1 "base" _ rfl rfl,
   token_getters_leaf_check.2.2.2.1 "elevation.custom" _ rfl⟩

/-- C7: the token lookup is a function of the path and the fixed token data
alone — the embedded store is an immutable constant, the source module never
reassigns `colors` (`as const`, no mutation API), and the getter reads only
its argument — so two lookups of the same path within a process lifetime
yield the same value. -/
theorem getColor_deterministic :
    ∀ path v1 v2, getColor path = .ok v1 → getColor path = .ok v2 → v1 = v2 := by
  intro path v1 v2 h1 h2
  rw [h1] at h2
  injection h2

/-- Witness for C7: both lookups of `semantic.error.500` return `#ef4444`. -/
theorem getColor_deterministic_witness :
    getColor "semantic.error.500" = .ok "#ef4444" ∧ ("#ef4444" : String) = "#ef4444" :=
  ⟨rfl, getColor_deterministic "semantic.error.500" "#ef4444" "#ef4444" rfl rfl⟩

/-- C8: `get('colors.semantic.error.500')` succeeds with `'#ef4444'` — on
the spec-modelled top-level namespace, and equally through the repository's
`getColor` with the category-relative path. -/
theorem get_error_500 :
    tokensGet "colors.semantic.error.500" = .ok (.str "#ef4444") ∧
    getColor "semantic.error.500" = .ok "#ef4444" :=
  ⟨rfl, rfl⟩

/-- C9: every derived shadow-colour entry equals the rgb string produced by
channel extraction from its source hex colour — split the six hex digits
into three pairs, parse each pair base-16, format as `rgb(R G B / opacity)`.
In particular the error shadow colour derived from
`colors.semantic.error.500 = '#ef4444'` is exactly `rgb(239 68 68 / 0.2)`. -/
theorem shadow_colors_derived_rgb :
    getColor "semantic.error.500" = .ok colors_semantic_error_500 ∧
    colors_semantic_error_500 = "#ef4444" ∧
    hexChannels "#ef4444" = "239 68 68" ∧
    getShadow "colors.error" =
      .ok (.str ("rgb(" ++ hexChannels colors_semantic_error_500 ++ " / 0.2)")) ∧
    getShadow "colors.error" = .ok (.str "rgb(239 68 68 / 0.2)") ∧
    getShadow "colors.primary" = .ok (.str "rgb(34 34 34 / 0.1)") ∧
    getShadow "colors.secondary" = .ok (.str "rgb(100 116 139 / 0.1)") ∧
    getShadow "colors.success" = .ok (.str "rgb(16 185 129 / 0.2)") ∧
    getShadow "colors.warning" = .ok (.str "rgb(245 158 11 / 0.2)") ∧
    getShadow "colors.info" = .ok (.str "rgb(6 182 212 / 0.2)") :=
  ⟨rfl, rfl, rfl, rfl, rfl, rfl, rfl, rfl, rfl, rfl⟩
